import Mathlib

/-!
# Verification of the `tsviz` data-preparation and chart-building pipeline

Shallow embedding of `src/tsviz/cli.py`.  Tables are lists of named,
typed columns; pandas timestamp values are modelled as hours since
0001-01-01T00:00 (proleptic Gregorian); numeric cell values are modelled
as integers (no claim depends on fractional values).  Fallible steps
return `Except`/`Option`.
-/

set_option autoImplicit false

deriving instance DecidableEq for Except

namespace Tsviz

/-- Column dtypes as pandas reports them (`int64`/`float64`/`object`/
`datetime64`). -/
inductive Dtype where
  | dtInt
  | dtFloat
  | dtObject
  | dtDatetime
deriving DecidableEq, Repr

/-- A cell value.  `null` models NaN/NaT/None; `ts h` is a timestamp at
`h` hours since 0001-01-01T00:00 (sub-hour precision is not carried; no
claim depends on it). -/
inductive Value where
  | null : Value
  | num : Int → Value
  | str : String → Value
  | ts : Nat → Value
deriving DecidableEq, Repr

def Value.isNull : Value → Bool
  | .null => true
  | _ => false

/-! ## Calendar arithmetic (proleptic Gregorian, as used by pandas) -/

def isLeap (y : Nat) : Bool := y % 4 == 0 && (y % 100 != 0 || y % 400 == 0)

def daysInMonth (y m : Nat) : Nat :=
  if m = 2 then (if isLeap y then 29 else 28)
  else if m = 4 ∨ m = 6 ∨ m = 9 ∨ m = 11 then 30
  else 31

/-- Days from 0001-01-01 to the start of year `y`. -/
def daysBeforeYear (y : Nat) : Nat :=
  365 * (y - 1) + (((y - 1) / 4 - (y - 1) / 100) + (y - 1) / 400)

/-- Days from the start of year `y` to the start of month `m`. -/
def daysBeforeMonth (y m : Nat) : Nat :=
  ((List.range (m - 1)).map (fun i => daysInMonth y (i + 1))).sum

/-- Absolute hour index of calendar instant `y-m-d h:00:00`. -/
def toHours (y m d h : Nat) : Nat :=
  24 * (daysBeforeYear y + daysBeforeMonth y m + (d - 1)) + h

def dayNames : List String :=
  ["Monday", "Tuesday", "Wednesday", "Thursday", "Friday", "Saturday", "Sunday"]

/-- `pandas.Series.dt.day_name` for one timestamp.  0001-01-01 was a
Monday in the proleptic Gregorian calendar. -/
def day_name (tHours : Nat) : String :=
  dayNames.getD ((tHours / 24) % 7) ""

/-! ## pandas `to_datetime` on one cell -/

/-- Decimal digit of a character, if any. -/
def digitVal (c : Char) : Option Nat :=
  if c.isDigit then some (c.toNat - 48) else none

/-- String timestamp parsing, modelling `pd.to_datetime` restricted to
ISO `YYYY-MM-DD` dates inside the `datetime64[ns]` representable range;
other string formats pandas accepts are not modelled (no claim depends
on them). -/
def parseDateString (s : String) : Option (Nat × Nat × Nat) :=
  match s.toList with
  | [y1, y2, y3, y4, '-', m1, m2, '-', d1, d2] =>
    match digitVal y1, digitVal y2, digitVal y3, digitVal y4,
          digitVal m1, digitVal m2, digitVal d1, digitVal d2 with
    | some a, some b, some c, some d, some e, some f, some g, some h =>
      let y := ((a * 10 + b) * 10 + c) * 10 + d
      let m := e * 10 + f
      let dd := g * 10 + h
      if 1678 ≤ y ∧ y ≤ 2261 ∧ 1 ≤ m ∧ m ≤ 12 ∧ 1 ≤ dd ∧ dd ≤ daysInMonth y m
      then some (y, m, dd) else none
    | _, _, _, _, _, _, _, _ => none
  | _ => none

def nsPerHour : Int := 3600000000000

def epoch1970Hours : Int := ((toHours 1970 1 1 0 : Nat) : Int)

/-- `datetime64[ns]` bound: numeric inputs beyond it raise
`OutOfBoundsDatetime` (a `ValueError`). -/
def nsInBounds (q : Int) : Bool := q.natAbs < 9223372036854775808

/-- `pd.to_datetime` on one cell: nulls convert to NaT without error,
timestamps pass through, in-range numbers are nanosecond offsets from
the 1970 epoch, and strings must parse as dates.  `none` models a raised
`ValueError`/`TypeError`/`OutOfBoundsDatetime`. -/
def to_datetime_value : Value → Option Value
  | .null => some .null
  | .ts t => some (.ts t)
  | .num q =>
    if nsInBounds q then some (.ts (epoch1970Hours + Int.ediv q nsPerHour).toNat)
    else none
  | .str s => (parseDateString s).map (fun p => .ts (toHours p.1 p.2.1 p.2.2 0))

/-! ## Tables -/

/-- One named, dtyped column. -/
structure Column where
  name : String
  dtype : Dtype
  values : List Value
deriving DecidableEq, Repr

/-- Every value of the column is null (`NaN`/`NaT`). -/
def Column.allNull (c : Column) : Bool := c.values.all Value.isNull

structure DataFrame where
  cols : List Column
deriving DecidableEq, Repr

/-- `len(df)`: the row count (frames are rectangular; the first column's
length). -/
def DataFrame.height (df : DataFrame) : Nat :=
  match df.cols with
  | [] => 0
  | c :: _ => c.values.length

/-- Leftmost column with the given label, as pandas `df[name]` reads it. -/
def DataFrame.findCol (df : DataFrame) (n : String) : Option Column :=
  df.cols.find? (fun c => c.name = n)

def DataFrame.hasCol (df : DataFrame) (n : String) : Bool :=
  df.cols.any (fun c => c.name == n)

/-- `df[name] = ...`: replace every column carrying the label in place,
or append a new column at the end. -/
def DataFrame.setCol (df : DataFrame) (newc : Column) : DataFrame :=
  if df.hasCol newc.name then
    ⟨df.cols.map (fun c => if c.name = newc.name then newc else c)⟩
  else ⟨df.cols ++ [newc]⟩

def isNumericDtype : Dtype → Bool
  | .dtInt => true
  | .dtFloat => true
  | _ => false

def headDtype (df : DataFrame) : Dtype :=
  match df.cols with
  | [] => .dtObject
  | c :: _ => c.dtype

/-! ## Theme palette (`cli.py` lines 9-25) -/

def PALETTE_NAMED : List (String × String) :=
  [("off_white", "#FDFDFD"),
   ("light_sage_gray", "#DBE0D7"),
   ("warm_tan", "#BBA178"),
   ("muted_sage_green", "#8C9785"),
   ("cool_blue_gray", "#BACCCC"),
   ("slate_blue_gray", "#5A6876"),
   ("charcoal", "#201C1A")]

def paletteNamed (k : String) : String :=
  ((PALETTE_NAMED.find? (fun p => p.1 = k)).map Prod.snd).getD ""

def PALETTE_COLORS : List String :=
  [paletteNamed "slate_blue_gray",
   paletteNamed "warm_tan",
   paletteNamed "cool_blue_gray",
   paletteNamed "muted_sage_green",
   paletteNamed "light_sage_gray"]

/-! ## Data preparation (`cli.py` lines 28-97) -/

/-- `pd.to_datetime(df[col], errors='raise')` succeeds on the whole
column. -/
def column_parses (c : Column) : Bool :=
  c.values.all (fun v => (to_datetime_value v).isSome)

/-- `detect_time_column` (`cli.py` lines 28-44): leftmost
datetime-dtyped column, else the leftmost column whose full-column
`to_datetime` attempt succeeds; the trailing index check (lines 41-43)
returns `None` on both branches. -/
def detect_time_column (df : DataFrame) : Option String :=
  match ((df.cols.filter (fun c => c.dtype == Dtype.dtDatetime)).map Column.name).head? with
  | some n => some n
  | none => (df.cols.find? column_parses).map Column.name

/-- Failures raised by `prepare_data`; each carries what the source
message interpolates. -/
inductive PrepError where
  | fileNotFound (path : String)
  | unsupportedFormat (suffix : String)
  | noDatetimeColumn
  | columnsNotFound (missing : List String)
  | noNumericColumns
  | timeParseError
  | keyError (name : String)
deriving DecidableEq, Repr

/-- The `str(e)` text `main` prints for each pipeline error
(`cli.py` lines 52, 59, 79, 88, 95). -/
def PrepError.message : PrepError → String
  | .fileNotFound p => "File not found: " ++ p
  | .unsupportedFormat s => "Unsupported file format: " ++ s
  | .noDatetimeColumn => "No datetime column found in the file"
  | .columnsNotFound ms => "Columns not found: " ++ String.intercalate ", " ms
  | .noNumericColumns => "No numeric columns found to plot"
  | .timeParseError => "time data cannot be converted to datetime"
  | .keyError n => "'" ++ n ++ "'"

/-- Fixed reference date of the synthesized hourly axis: 2027-01-01. -/
def start2027 : Nat := toHours 2027 1 1 0

/-- `pd.date_range('2027-01-01', periods=n, freq='H')` (`cli.py`
line 77). -/
def date_range_hourly (n : Nat) : List Value :=
  (List.range n).map (fun i => Value.ts (start2027 + i))

/-- Detection phase of `prepare_data` (`cli.py` lines 61-79).  File I/O
is passed in: `df` is the loaded frame, `isCsv` records the suffix
dispatch, `reload` is what `pd.read_csv(path, header=None,
names=['value'])` would load, and `dtIndex` is the frame's index as a
column when it is a `DatetimeIndex` (else `none`). -/
def detect_phase (df : DataFrame) (isCsv : Bool) (reload : DataFrame)
    (dtIndex : Option Column) : Except PrepError (DataFrame × String) :=
  let t0 := detect_time_column df
  let p : DataFrame × Option String :=
    if t0.isNone && isCsv && df.cols.length == 1 && !(isNumericDtype (headDtype df))
    then (reload, detect_time_column reload)
    else (df, t0)
  match p.2 with
  | some t => .ok (p.1, t)
  | none =>
    match dtIndex with
    | some idxc => .ok (⟨idxc :: p.1.cols⟩, idxc.name)
    | none =>
      if (p.1.cols.filter (fun c => isNumericDtype c.dtype)).length = 1 then
        .ok (p.1.setCol ⟨"datetime", .dtDatetime, date_range_hourly p.1.height⟩, "datetime")
      else .error .noDatetimeColumn

/-- `df[time_col] = pd.to_datetime(df[time_col])` (`cli.py` line 81);
a missing label would raise a `KeyError`. -/
def coerce_time (df : DataFrame) (t : String) : Except PrepError DataFrame :=
  match df.findCol t with
  | none => .error (.keyError t)
  | some c =>
    match c.values.mapM to_datetime_value with
    | none => .error .timeParseError
    | some vs => .ok (df.setCol ⟨t, .dtDatetime, vs⟩)

/-- `df.dropna(axis=1, how='all')` (`cli.py` line 83): keep exactly the
columns holding at least one non-null value. -/
def drop_all_null (df : DataFrame) : DataFrame :=
  ⟨df.cols.filter (fun c => !c.allNull)⟩

/-- Auto-detected value columns (`cli.py` lines 91-92). -/
def autoCols (df : DataFrame) (t : String) : List String :=
  ((df.cols.filter (fun c => c.name ≠ t)).filter
    (fun c => isNumericDtype c.dtype)).map Column.name

/-- Value-column resolution (`cli.py` lines 85-92); `some []` behaves
like `None` because an empty Python list is falsy. -/
def resolve_value_cols (df : DataFrame) (t : String)
    (columns : Option (List String)) : Except PrepError (List String) :=
  match columns with
  | some cs =>
    if cs.isEmpty then .ok (autoCols df t)
    else
      let missing := cs.filter (fun c => !df.hasCol c)
      if missing.isEmpty then .ok cs else .error (.columnsNotFound missing)
  | none => .ok (autoCols df t)

/-- Coercion, pruning, value-column resolution and the non-empty check
(`cli.py` lines 81-97). -/
def finish_prepare (df : DataFrame) (t : String)
    (columns : Option (List String)) :
    Except PrepError (DataFrame × String × List String) :=
  match coerce_time df t with
  | .error e => .error e
  | .ok df2 =>
    match resolve_value_cols (drop_all_null df2) t columns with
    | .error e => .error e
    | .ok v =>
      if v.isEmpty then .error .noNumericColumns
      else .ok (drop_all_null df2, t, v)

/-- `prepare_data` (`cli.py` lines 47-97) on an already-loaded frame;
path existence and suffix dispatch stay with the caller (see
`run_cli`). -/
def prepare_data (df : DataFrame) (isCsv : Bool) (reload : DataFrame)
    (dtIndex : Option Column) (columns : Option (List String)) :
    Except PrepError (DataFrame × String × List String) :=
  match detect_phase df isCsv reload dtIndex with
  | .error e => .error e
  | .ok (df1, t) => finish_prepare df1 t columns

/-! ## Chart building (`cli.py` lines 100-163) -/

/-- One `go.Scatter` trace as `create_plot` configures it. -/
structure Trace where
  name : String
  x : List Value
  y : List Value
  customdata : Option (List Value)
  hovertemplate : String
  color : String
deriving DecidableEq, Repr

structure Figure where
  title : String
  traces : List Trace
deriving DecidableEq, Repr

/-- The hover template assembled at `cli.py` lines 109-119; the Day line
is present exactly when the year check succeeded. -/
def hover_template_for (col : String) (has_year : Bool) : String :=
  "<b>" ++ col ++ "</b><br>" ++ "Date: %\x7bx|%Y-%m-%d %H:%M:%S\x7d<br>" ++
  (if has_year then "Day: %\x7bcustomdata[0]\x7d<br>" else "") ++
  "Value: %\x7by:,.2f\x7d<extra></extra>"

/-- `df[time_col].dt.day_name()` over a column's values; NaT gives
null. -/
def day_of_week_values (tvals : List Value) : List Value :=
  tvals.map (fun v =>
    match v with
    | .ts h => Value.str (day_name h)
    | _ => Value.null)

/-- `df[time_col].dt.year.notna().any()` (`cli.py` line 104): some
timestamp of the time column is not NaT. -/
def has_year_of (df : DataFrame) (t : String) : Bool :=
  match df.findCol t with
  | some c => c.values.any (fun v => !v.isNull)
  | none => false

/-- The loop of `create_plot` (`cli.py` lines 106-129), threading the
frame because line 113 assigns `df['_day_of_week']` in place; `none`
models a raised `KeyError`/`AttributeError`. -/
def plot_traces (t : String) (hy : Bool) :
    DataFrame → Nat → List String → Option (List Trace × DataFrame)
  | df, _, [] => some ([], df)
  | df, idx, col :: rest =>
    match df.findCol t with
    | none => none
    | some tcol =>
      let step : Option (DataFrame × Option (List Value)) :=
        if hy then
          if tcol.dtype = .dtDatetime then
            let dow := day_of_week_values tcol.values
            some (df.setCol ⟨"_day_of_week", .dtObject, dow⟩, some dow)
          else none
        else some (df, none)
      match step with
      | none => none
      | some (df1, customdata) =>
        match df1.findCol col, df1.findCol t with
        | some ycol, some tcol2 =>
          match plot_traces t hy df1 (idx + 1) rest with
          | some (trs, df2) =>
            some (⟨col, tcol2.values, ycol.values, customdata,
                   hover_template_for col hy,
                   PALETTE_COLORS.getD (idx % PALETTE_COLORS.length) ""⟩ :: trs, df2)
          | none => none
        | _, _ => none

/-- `create_plot` (`cli.py` lines 100-163).  Returns the figure and the
frame as left behind (line 113 mutates it); `none` models a raised
exception. -/
def create_plot (df : DataFrame) (time_col : String)
    (value_cols : List String) : Option (Figure × DataFrame) :=
  match df.findCol time_col with
  | none => none
  | some tcol =>
    if tcol.dtype = .dtDatetime then
      match plot_traces time_col (has_year_of df time_col) df 0 value_cols with
      | none => none
      | some (trs, df2) => some (⟨"Time Series Visualization", trs⟩, df2)
    else none

/-! ## CLI layer (`cli.py` lines 166-206) -/

/-- What loading the positional `FILE` argument produced; file I/O is
abstracted into this summary. -/
inductive LoadResult where
  | notFound (path : String)
  | badSuffix (suffix : String)
  | table (df : DataFrame) (isCsv : Bool) (reload : DataFrame) (dtIndex : Option Column)
deriving DecidableEq, Repr

structure CliOutcome where
  exitCode : Nat
  errOut : Option String
  chart : Option Figure
deriving DecidableEq, Repr

/-- The usage error `click.Path` emits for a nonexistent path; click
aborts with exit code 2 before `main`'s body runs. -/
def click_usage_message (p : String) : String :=
  "Error: Invalid value for 'FILE': Path '" ++ p ++ "' does not exist."

/-- Text of the exception escaping `create_plot` when a lookup fails
inside it (its exact wording comes from pandas and is abstracted). -/
def plot_error_message : String := "plot error"

/-- The pipeline inside `main`'s `try` block: `prepare_data` including
its own existence and suffix checks (`cli.py` lines 51-59). -/
def pipeline : LoadResult → Option (List String) →
    Except PrepError (DataFrame × String × List String)
  | .notFound p, _ => .error (.fileNotFound p)
  | .badSuffix s, _ => .error (.unsupportedFormat s)
  | .table df isCsv reload dtIndex, cols => prepare_data df isCsv reload dtIndex cols

/-- `main` (`cli.py` lines 166-206) together with the argument layer:
`click.Path` with an existence requirement rejects a missing path with a
usage error, exit code 2, before the `try` block; errors raised inside
the block print `Error: <message>` to stderr and exit 1; on success the
chart is produced (title possibly overridden) and the exit code is 0. -/
def run_cli (load : LoadResult) (cols : Option (List String))
    (title : Option String) : CliOutcome :=
  match load with
  | .notFound p => ⟨2, some (click_usage_message p), none⟩
  | _ =>
    match pipeline load cols with
    | .error e => ⟨1, some ("Error: " ++ e.message), none⟩
    | .ok (df, t, v) =>
      match create_plot df t v with
      | none => ⟨1, some ("Error: " ++ plot_error_message), none⟩
      | some (fig, _) =>
        ⟨0, none, some (match title with
                        | some s => { fig with title := s }
                        | none => fig)⟩

/-! ## Helper lemmas -/

theorem filter_head?_eq_find? {α : Type} (p : α → Bool) (l : List α) :
    (l.filter p).head? = l.find? p := by
  induction l with
  | nil => rfl
  | cons a l ih =>
    by_cases h : p a
    · simp [List.filter_cons, List.find?_cons, h]
    · simp only [Bool.not_eq_true] at h
      simp [List.filter_cons, List.find?_cons, h, ih]

theorem find?_append_of_forall {α : Type} (p : α → Bool) (pre : List α) (c : α)
    (post : List α) (hpre : ∀ x ∈ pre, p x = false) (hc : p c = true) :
    (pre ++ c :: post).find? p = some c := by
  induction pre with
  | nil => simp [List.find?_cons, hc]
  | cons a l ih =>
    have ha := hpre a (by simp)
    simp only [List.cons_append, List.find?_cons, ha]
    exact ih (fun x hx => hpre x (by simp [hx]))

theorem hasCol_of_mem {df : DataFrame} {c : Column} {n : String}
    (hmem : c ∈ df.cols) (hn : c.name = n) : df.hasCol n = true := by
  simp only [DataFrame.hasCol, List.any_eq_true]
  exact ⟨c, hmem, by simp [hn]⟩

theorem findCol_mem {df : DataFrame} {c : Column} {n : String}
    (h : df.findCol n = some c) : c ∈ df.cols ∧ c.name = n := by
  refine ⟨List.mem_of_find?_eq_some h, ?_⟩
  have := List.find?_some h
  simpa using this

theorem findCol_isSome_of_hasCol {df : DataFrame} {n : String}
    (h : df.hasCol n = true) : ∃ c, df.findCol n = some c := by
  simp only [DataFrame.hasCol, List.any_eq_true, beq_iff_eq] at h
  obtain ⟨c, hmem, hn⟩ := h
  rcases hfind : df.findCol n with _ | c'
  · exfalso
    have := List.find?_eq_none.mp hfind c hmem
    simp [hn] at this
  · exact ⟨c', rfl⟩

theorem hasCol_setCol_of_hasCol {df : DataFrame} {newc : Column} {n : String}
    (h : df.hasCol n = true) : (df.setCol newc).hasCol n = true := by
  simp only [DataFrame.hasCol, List.any_eq_true, beq_iff_eq] at h ⊢
  obtain ⟨c, hmem, hn⟩ := h
  simp only [DataFrame.setCol]
  by_cases hp : df.hasCol newc.name
  · simp only [hp, if_true]
    by_cases hcn : c.name = newc.name
    · exact ⟨newc, List.mem_map.mpr ⟨c, hmem, by simp [hcn]⟩, by rw [← hcn, hn]⟩
    · exact ⟨c, List.mem_map.mpr ⟨c, hmem, by simp [hcn]⟩, hn⟩
  · simp only [hp]
    exact ⟨c, by simp [hmem], hn⟩

theorem setCol_names {df : DataFrame} {newc c : Column}
    (hmem : c ∈ (df.setCol newc).cols) (hn : c.name = newc.name) : c = newc := by
  simp only [DataFrame.setCol] at hmem
  by_cases hp : df.hasCol newc.name
  · simp only [hp, if_true] at hmem
    obtain ⟨c0, hc0, heq⟩ := List.mem_map.mp hmem
    by_cases h0 : c0.name = newc.name
    · simp [h0] at heq; exact heq.symm
    · simp [h0] at heq; rw [← heq] at hn; exact absurd hn h0
  · simp only [hp] at hmem
    rcases List.mem_append.mp hmem with hl | hr
    · exfalso
      have := @hasCol_of_mem df c newc.name hl hn
      simp only [Bool.not_eq_true] at hp
      rw [hp] at this
      cases this
    · simpa using hr

theorem hasCol_setCol_self (df : DataFrame) (newc : Column) :
    (df.setCol newc).hasCol newc.name = true := by
  simp only [DataFrame.setCol]
  by_cases hp : df.hasCol newc.name
  · simp only [hp, if_true]
    simp only [DataFrame.hasCol, List.any_eq_true, beq_iff_eq] at hp ⊢
    obtain ⟨c, hmem, hn⟩ := hp
    exact ⟨newc, List.mem_map.mpr ⟨c, hmem, by simp [hn]⟩, rfl⟩
  · simp only [hp]
    exact hasCol_of_mem (by simp) rfl

theorem findCol_setCol_self (df : DataFrame) (newc : Column) :
    (df.setCol newc).findCol newc.name = some newc := by
  obtain ⟨c, hc⟩ := findCol_isSome_of_hasCol (hasCol_setCol_self df newc)
  obtain ⟨hmem, hn⟩ := findCol_mem hc
  rw [hc, setCol_names hmem hn]

theorem find?_map_eq {α : Type} (f : α → α) (p : α → Bool) (l : List α)
    (h1 : ∀ c, p (f c) = p c) (h2 : ∀ c, p c = true → f c = c) :
    (l.map f).find? p = l.find? p := by
  induction l with
  | nil => rfl
  | cons a l ih =>
    rcases hp : p a with _ | _
    · have hfa : p (f a) = false := by rw [h1]; exact hp
      simp [List.find?_cons, hfa, hp, ih]
    · have hfa : p (f a) = true := by rw [h1]; exact hp
      simp [List.find?_cons, hfa, hp, h2 a hp]

theorem find?_append_none {α : Type} (p : α → Bool) (c : α) (hc : p c = false) :
    ∀ (l : List α), (l ++ [c]).find? p = l.find? p := by
  intro l
  induction l with
  | nil => simp [List.find?_cons, hc]
  | cons a l ih =>
    rcases hp : p a with _ | _
    · simp [List.find?_cons, hp, ih]
    · simp [List.find?_cons, hp]

theorem findCol_setCol_ne {df : DataFrame} {newc : Column} {n : String}
    (h : n ≠ newc.name) : (df.setCol newc).findCol n = df.findCol n := by
  have hnn : ¬ (newc.name = n) := fun hh => h hh.symm
  simp only [DataFrame.setCol, DataFrame.findCol]
  by_cases hp : df.hasCol newc.name
  · simp only [hp, if_true]
    apply find?_map_eq
    · intro c
      by_cases hc : c.name = newc.name
      · have h2 : ¬ (c.name = n) := by rw [hc]; exact hnn
        simp [hc, hnn, h2]
      · simp [hc]
    · intro c hc
      simp only [decide_eq_true_eq] at hc
      have hcn : ¬ (c.name = newc.name) := by rw [hc]; exact h
      simp [hcn]
  · simp only [hp]
    exact find?_append_none _ newc (by simp [hnn]) df.cols

theorem setCol_set_same {df : DataFrame} {newc : Column}
    (hp : df.hasCol newc.name = true)
    (h : ∀ c ∈ df.cols, c.name = newc.name → c = newc) : df.setCol newc = df := by
  simp only [DataFrame.setCol, hp, if_true]
  congr 1
  have : ∀ c ∈ df.cols, (if c.name = newc.name then newc else c) = c := by
    intro c hmem
    by_cases hc : c.name = newc.name
    · simp [hc, (h c hmem hc).symm]
    · simp [hc]
  calc df.cols.map (fun c => if c.name = newc.name then newc else c)
      = df.cols.map id := List.map_congr_left this
    _ = df.cols := List.map_id df.cols

theorem setCol_setCol_same (df : DataFrame) (c : Column) :
    (df.setCol c).setCol c = df.setCol c :=
  setCol_set_same (hasCol_setCol_self df c) (fun _ hm hn => setCol_names hm hn)

theorem find?_name_of_nodup {c : Column} {t : String} :
    ∀ (l : List Column), (l.map Column.name).Nodup → c ∈ l → c.name = t →
      l.find? (fun x => x.name = t) = some c := by
  intro l
  induction l with
  | nil => intro _ hmem _; cases hmem
  | cons a l ih =>
    intro hnd hmem hn
    simp only [List.map_cons, List.nodup_cons] at hnd
    rcases List.mem_cons.mp hmem with heq | htl
    · subst heq
      simp [List.find?_cons, hn]
    · have hat : ¬ (a.name = t) := by
        intro hh
        exact hnd.1 (by rw [hh, ← hn]; exact List.mem_map.mpr ⟨c, htl, rfl⟩)
      rw [List.find?_cons_of_neg _ (by simpa using hat)]
      exact ih hnd.2 htl hn

theorem findCol_eq_of_nodup {df : DataFrame} {c : Column} {t : String}
    (hnd : (df.cols.map Column.name).Nodup) (hmem : c ∈ df.cols)
    (hn : c.name = t) : df.findCol t = some c :=
  find?_name_of_nodup df.cols hnd hmem hn

theorem detect_none_forall {df : DataFrame}
    (h : detect_time_column df = none) :
    ∀ c ∈ df.cols, (c.dtype == Dtype.dtDatetime) = false ∧ column_parses c = false := by
  simp only [detect_time_column] at h
  rcases hh : ((df.cols.filter (fun c => c.dtype == Dtype.dtDatetime)).map Column.name).head? with _ | n
  · rw [hh] at h
    have hfe : df.cols.filter (fun c => c.dtype == Dtype.dtDatetime) = [] := by
      have h1 := List.head?_eq_none_iff.mp hh
      exact List.map_eq_nil_iff.mp h1
    have hfind : df.cols.find? column_parses = none := by
      rcases hf2 : df.cols.find? column_parses with _ | c
      · rfl
      · rw [hf2] at h; simp at h
    intro c hmem
    constructor
    · by_cases hc : (c.dtype == Dtype.dtDatetime) = true
      · exfalso
        have hmf : c ∈ df.cols.filter (fun c => c.dtype == Dtype.dtDatetime) :=
          List.mem_filter.mpr ⟨hmem, hc⟩
        rw [hfe] at hmf
        cases hmf
      · simpa using hc
    · have := List.find?_eq_none.mp hfind c hmem
      simpa using this
  · rw [hh] at h; cases h

theorem column_parses_false_exists {c : Column}
    (h : column_parses c = false) :
    ∃ v ∈ c.values, (to_datetime_value v).isNone ∧ v ≠ Value.null := by
  simp only [column_parses, List.all_eq_true, not_forall] at h
  rcases List.all_eq_false.mp h with ⟨v, hmem, hv⟩
  refine ⟨v, hmem, by simpa using hv, ?_⟩
  intro hnull
  rw [hnull] at hv
  simp [to_datetime_value] at hv

theorem column_parses_false_not_allNull {c : Column}
    (h : column_parses c = false) : c.allNull = false := by
  obtain ⟨v, hmem, -, hne⟩ := column_parses_false_exists h
  simp only [Column.allNull]
  rcases hh : c.values.all Value.isNull with _ | _
  · rfl
  · exfalso
    have := List.all_eq_true.mp hh v hmem
    cases v <;> simp_all [Value.isNull]

theorem mapM_to_datetime_id {l : List Value}
    (h : ∀ v ∈ l, ∃ k, v = Value.ts k) : l.mapM to_datetime_value = some l := by
  induction l with
  | nil => rfl
  | cons a l ih =>
    obtain ⟨k, hk⟩ := h a (by simp)
    rw [List.mapM_cons, hk]
    simp only [to_datetime_value, Option.pure_def, Option.bind_eq_bind,
      Option.some_bind]
    rw [ih (fun v hv => h v (by simp [hv]))]
    rfl

theorem date_range_all_ts (n : Nat) :
    ∀ v ∈ date_range_hourly n, ∃ k, v = Value.ts k := by
  intro v hv
  simp only [date_range_hourly, List.mem_map] at hv
  obtain ⟨i, -, hi⟩ := hv
  exact ⟨start2027 + i, hi.symm⟩

theorem date_range_length (n : Nat) : (date_range_hourly n).length = n := by
  simp [date_range_hourly]

theorem date_range_head {n : Nat} (h : n ≠ 0) :
    (date_range_hourly n).head? = some (Value.ts (toHours 2027 1 1 0)) := by
  rcases n with _ | m
  · exact absurd rfl h
  · simp [date_range_hourly, List.range_succ_eq_map, start2027]

theorem date_range_last {n : Nat} (h : n ≠ 0) :
    (date_range_hourly n).getLast? = some (Value.ts (start2027 + (n - 1))) := by
  rcases n with _ | m
  · exact absurd rfl h
  · simp only [date_range_hourly, List.range_succ, List.map_append, List.map_cons,
      List.map_nil]
    rw [List.getLast?_concat]
    simp

theorem date_range_not_allNull {n : Nat} (h : n ≠ 0) :
    (Column.allNull ⟨"datetime", Dtype.dtDatetime, date_range_hourly n⟩) = false := by
  rcases hh : Column.allNull ⟨"datetime", Dtype.dtDatetime, date_range_hourly n⟩ with _ | _
  · rfl
  · exfalso
    simp only [Column.allNull, List.all_eq_true] at hh
    rcases hv : (date_range_hourly n).head? with _ | v
    · rw [List.head?_eq_none_iff] at hv
      have := date_range_length n
      rw [hv] at this
      exact h this.symm
    · have hmem : v ∈ date_range_hourly n := List.mem_of_mem_head? hv
      obtain ⟨k, hk⟩ := date_range_all_ts n v hmem
      have := hh v hmem
      rw [hk] at this
      simp [Value.isNull] at this

theorem coerce_mem_ne {df df2 : DataFrame} {t : String}
    (h : coerce_time df t = Except.ok df2) :
    ∀ col ∈ df2.cols, col.name ≠ t → col ∈ df.cols := by
  simp only [coerce_time] at h
  rcases hf : df.findCol t with _ | c
  · simp only [hf] at h
    exact Except.noConfusion h
  · simp only [hf] at h
    rcases hm : c.values.mapM to_datetime_value with _ | vs
    · simp only [hm] at h
      exact Except.noConfusion h
    · simp only [hm, Except.ok.injEq] at h
      have hdf2 : df2 = df.setCol ⟨t, Dtype.dtDatetime, vs⟩ := h.symm
      subst hdf2
      intro col hmem hne
      simp only [DataFrame.setCol] at hmem
      by_cases hp : DataFrame.hasCol df t = true
      · simp only [hp, if_true] at hmem
        obtain ⟨c0, hc0, heq⟩ := List.mem_map.mp hmem
        by_cases h0 : c0.name = t
        · exfalso
          rw [if_pos h0] at heq
          apply hne
          rw [← heq]
        · rw [if_neg h0] at heq
          rw [← heq]
          exact hc0
      · simp only [hp] at hmem
        rcases List.mem_append.mp hmem with hl | hr
        · exact hl
        · exfalso
          simp only [List.mem_singleton] at hr
          apply hne
          rw [hr]

theorem mem_autoCols {df : DataFrame} {t n : String} (h : n ∈ autoCols df t) :
    n ≠ t ∧ ∃ c ∈ df.cols, c.name = n ∧ isNumericDtype c.dtype = true := by
  simp only [autoCols, List.mem_map, List.mem_filter] at h
  obtain ⟨c, ⟨⟨hmem, hne⟩, hnum⟩, hname⟩ := h
  refine ⟨?_, c, hmem, hname, hnum⟩
  rw [← hname]
  simpa using hne

theorem detect_eq (df : DataFrame) :
    detect_time_column df =
      match (df.cols.find? (fun c => c.dtype == Dtype.dtDatetime)).map Column.name with
      | some n => some n
      | none => (df.cols.find? column_parses).map Column.name := by
  simp only [detect_time_column, List.head?_map, filter_head?_eq_find?]

/-! ## Claims -/

/-- C1: time-column detection policy of `detect_time_column`: if some
column is already datetime-dtyped, the leftmost such column is chosen;
otherwise columns are scanned left to right and the first column whose
every value parses as a timestamp is chosen; and any selected column is
either datetime-dtyped or parses in full, so a column with a failing
value is never selected. -/
theorem detect_time_column_policy (df : DataFrame) :
    (∀ (pre : List Column) (c : Column) (post : List Column),
        df.cols = pre ++ c :: post → c.dtype = Dtype.dtDatetime →
        (∀ c' ∈ pre, c'.dtype ≠ Dtype.dtDatetime) →
        detect_time_column df = some c.name)
  ∧ ((∀ c ∈ df.cols, c.dtype ≠ Dtype.dtDatetime) →
      ∀ (pre : List Column) (c : Column) (post : List Column),
        df.cols = pre ++ c :: post → column_parses c = true →
        (∀ c' ∈ pre, column_parses c' = false) →
        detect_time_column df = some c.name)
  ∧ (∀ n, detect_time_column df = some n →
      ∃ c ∈ df.cols, c.name = n ∧
        (c.dtype = Dtype.dtDatetime ∨ column_parses c = true)) := by
  refine ⟨?_, ?_, ?_⟩
  · intro pre c post hcols hdt hpre
    have hfind : df.cols.find? (fun x => x.dtype == Dtype.dtDatetime) = some c := by
      rw [hcols]
      exact find?_append_of_forall _ pre c post
        (fun x hx => by simpa using hpre x hx) (by simp [hdt])
    rw [detect_eq df, hfind]
    rfl
  · intro hnodt pre c post hcols hc hpre
    have hfd : df.cols.find? (fun x => x.dtype == Dtype.dtDatetime) = none := by
      apply List.find?_eq_none.mpr
      intro x hx
      simpa using hnodt x hx
    have hfind : df.cols.find? column_parses = some c := by
      rw [hcols]
      exact find?_append_of_forall _ pre c post (fun x hx => hpre x hx) hc
    rw [detect_eq df, hfd, hfind]
    rfl
  · intro n hdet
    rw [detect_eq df] at hdet
    rcases hfd : df.cols.find? (fun x => x.dtype == Dtype.dtDatetime) with _ | c
    · simp only [hfd, Option.map_none'] at hdet
      rcases hfp : df.cols.find? column_parses with _ | c
      · rw [hfp] at hdet; cases hdet
      · rw [hfp] at hdet
        have hn : c.name = n := by simpa using hdet
        exact ⟨c, List.mem_of_find?_eq_some hfp, hn, Or.inr (List.find?_some hfp)⟩
    · simp only [hfd, Option.map_some'] at hdet
      have hn : c.name = n := by simpa using hdet
      have hp := List.find?_some hfd
      exact ⟨c, List.mem_of_find?_eq_some hfd, hn, Or.inl (by simpa using hp)⟩

def tsJan1 : Nat := toHours 2024 1 1 0

def dfDet : DataFrame :=
  ⟨[⟨"a", .dtObject, [.str "x"]⟩, ⟨"d", .dtDatetime, [.ts tsJan1]⟩]⟩

/-- Witness for C1: in a frame whose second column is the only
datetime-dtyped one, detection picks it. -/
theorem detect_time_column_policy_witness : detect_time_column dfDet = some "d" :=
  (detect_time_column_policy dfDet).1 [⟨"a", .dtObject, [.str "x"]⟩]
    ⟨"d", .dtDatetime, [.ts tsJan1]⟩ [] rfl rfl (by decide)

theorem finish_prepare_ok {df df' : DataFrame} {t t' : String}
    {columns : Option (List String)} {v : List String}
    (h : finish_prepare df t columns = .ok (df', t', v)) :
    ∃ df2, coerce_time df t = .ok df2 ∧ df' = drop_all_null df2 ∧ t' = t ∧
      resolve_value_cols (drop_all_null df2) t columns = .ok v ∧ v ≠ [] := by
  simp only [finish_prepare] at h
  rcases hc : coerce_time df t with e | df2
  · simp only [hc] at h
    exact Except.noConfusion h
  · simp only [hc] at h
    rcases hr : resolve_value_cols (drop_all_null df2) t columns with e | v0
    · simp only [hr] at h
      exact Except.noConfusion h
    · simp only [hr] at h
      rcases hv : v0.isEmpty with _ | _
      · rw [hv] at h
        simp only [Bool.false_eq_true, if_false, Except.ok.injEq,
          Prod.mk.injEq] at h
        obtain ⟨h1, h2, h3⟩ := h
        subst h1
        subst h2
        subst h3
        refine ⟨df2, rfl, rfl, rfl, hr, ?_⟩
        intro hh
        rw [hh] at hv
        simp at hv
      · rw [hv] at h
        simp only [if_true] at h
        exact Except.noConfusion h

theorem prepare_data_ok {df reload : DataFrame} {isCsv : Bool}
    {dtIndex : Option Column} {columns : Option (List String)}
    {df' : DataFrame} {t' : String} {v : List String}
    (h : prepare_data df isCsv reload dtIndex columns = .ok (df', t', v)) :
    ∃ df1 df2, detect_phase df isCsv reload dtIndex = .ok (df1, t') ∧
      coerce_time df1 t' = .ok df2 ∧ df' = drop_all_null df2 ∧
      resolve_value_cols (drop_all_null df2) t' columns = .ok v ∧ v ≠ [] := by
  simp only [prepare_data] at h
  rcases hd : detect_phase df isCsv reload dtIndex with e | p
  · simp only [hd] at h
    exact Except.noConfusion h
  · simp only [hd] at h
    obtain ⟨df2, hc, hdf, ht, hr, hv⟩ := finish_prepare_ok h
    subst ht
    exact ⟨p.1, df2, rfl, hc, hdf, hr, hv⟩

theorem resolve_ok_auto {df : DataFrame} {t : String} {v : List String}
    (h : resolve_value_cols df t none = .ok v) : v = autoCols df t := by
  simp only [resolve_value_cols, Except.ok.injEq] at h
  exact h.symm

theorem resolve_ok_explicit {df : DataFrame} {t : String} {cs v : List String}
    (h : resolve_value_cols df t (some cs) = .ok v) (hne : cs ≠ []) :
    v = cs ∧ ∀ n ∈ cs, df.hasCol n = true := by
  have hcs : cs.isEmpty = false := by
    rcases cs with _ | ⟨a, l⟩
    · exact absurd rfl hne
    · rfl
  simp only [resolve_value_cols, hcs, Bool.false_eq_true, if_false] at h
  rcases hm : (cs.filter (fun c => !df.hasCol c)).isEmpty with _ | _
  · simp only [hm, Bool.false_eq_true, if_false] at h
    exact Except.noConfusion h
  · simp only [hm, if_true, Except.ok.injEq] at h
    refine ⟨h.symm, ?_⟩
    have hnil : cs.filter (fun c => !df.hasCol c) = [] := by
      simpa [List.isEmpty_iff] using hm
    intro n hn
    by_cases hh : df.hasCol n = true
    · exact hh
    · exfalso
      have : n ∈ cs.filter (fun c => !df.hasCol c) :=
        List.mem_filter.mpr ⟨hn, by simp [hh]⟩
      rw [hnil] at this
      cases this

def dfExp : DataFrame :=
  ⟨[⟨"t", .dtDatetime, [.ts tsJan1]⟩, ⟨"name", .dtObject, [.str "bob"]⟩]⟩

/-- Counterexample to C2 as stated: with an explicit request for the
text column `name`, `prepare_data` succeeds and returns `name` as a
value column even though it is not numeric in the returned table. -/
theorem prepare_value_cols_invariant_cex :
    prepare_data dfExp true dfExp none (some ["name"]) = .ok (dfExp, "t", ["name"]) ∧
    dfExp.findCol "name" = some ⟨"name", .dtObject, [.str "bob"]⟩ ∧
    isNumericDtype Dtype.dtObject = false :=
  ⟨by decide, by decide, rfl⟩

/-- C2 (amended): every successful `prepare_data` returns a non-empty
value-column list whose names all exist in the returned table; when the
caller gave no (non-empty) explicit list, every value column is
additionally numeric and distinct from the time column.  (As stated the
claim fails: explicit columns are only checked for existence.) -/
theorem prepare_value_cols_invariant (df : DataFrame) (isCsv : Bool)
    (reload : DataFrame) (dtIndex : Option Column)
    (columns : Option (List String)) (df' : DataFrame) (t' : String)
    (v : List String)
    (h : prepare_data df isCsv reload dtIndex columns = .ok (df', t', v)) :
    v ≠ [] ∧ (∀ n ∈ v, df'.hasCol n = true) ∧
    ((columns.getD []).isEmpty = true →
      ∀ n ∈ v, n ≠ t' ∧ ∃ c ∈ df'.cols, c.name = n ∧
        isNumericDtype c.dtype = true) := by
  obtain ⟨df1, df2, hd, hc, hdf, hr, hv⟩ := prepare_data_ok h
  subst hdf
  have hauto : (columns.getD []).isEmpty = true →
      v = autoCols (drop_all_null df2) t' := by
    intro hcol
    rcases columns with _ | cs
    · exact resolve_ok_auto hr
    · have hcs : cs = [] := by simpa [List.isEmpty_iff] using hcol
      subst hcs
      simp only [resolve_value_cols, List.isEmpty_nil, if_true,
        Except.ok.injEq] at hr
      exact hr.symm
  refine ⟨hv, ?_, ?_⟩
  · rcases columns with _ | cs
    · have hva := resolve_ok_auto hr
      subst hva
      intro n hn
      obtain ⟨-, c, hmem, hname, -⟩ := mem_autoCols hn
      exact hasCol_of_mem hmem hname
    · rcases hcs : cs.isEmpty with _ | _
      · have hne : cs ≠ [] := by
          intro hh
          rw [hh] at hcs
          simp at hcs
        obtain ⟨hveq, hall⟩ := resolve_ok_explicit hr hne
        subst hveq
        exact hall
      · have hceq : cs = [] := by simpa [List.isEmpty_iff] using hcs
        subst hceq
        have hva := hauto (by rfl)
        subst hva
        intro n hn
        obtain ⟨-, c, hmem, hname, -⟩ := mem_autoCols hn
        exact hasCol_of_mem hmem hname
  · intro hcol n hn
    have hva := hauto hcol
    subst hva
    obtain ⟨hne, c, hmem, hname, hnum⟩ := mem_autoCols hn
    exact ⟨hne, c, hmem, hname, hnum⟩

def dfAuto : DataFrame :=
  ⟨[⟨"d", .dtDatetime, [.ts tsJan1]⟩, ⟨"v", .dtInt, [.num 1]⟩]⟩

/-- Witness for C2 (amended): the auto-detected value column `v` of a
concrete successful run exists in the returned table. -/
theorem prepare_value_cols_invariant_witness : DataFrame.hasCol dfAuto "v" = true :=
  (prepare_value_cols_invariant dfAuto true dfAuto none none dfAuto "d" ["v"]
    (by decide)).2.1 "v" (by decide)

def dfNull : DataFrame := ⟨[⟨"a", .dtFloat, [.null]⟩, ⟨"b", .dtInt, [.num 5]⟩]⟩

/-- Counterexample to C8 as stated: in a frame whose first column is
entirely null, that column parses in full (nulls become NaT), is
detected as the time column, and is then removed by the pruning step:
the returned table no longer contains the returned time column. -/
theorem prepare_prunes_all_null_cex :
    prepare_data dfNull true dfNull none none =
      .ok (⟨[⟨"b", .dtInt, [.num 5]⟩]⟩, "a", ["b"]) ∧
    DataFrame.hasCol ⟨[⟨"b", .dtInt, [.num 5]⟩]⟩ "a" = false :=
  ⟨by decide, by decide⟩

/-- C8 (amended): after time-column coercion, exactly the columns that
are entirely null across all rows are removed, in order — including the
time column itself when its coerced values are all null.  (As stated the
claim fails: the prune has no exemption for the time column.) -/
theorem prepare_prunes_all_null (df : DataFrame) (isCsv : Bool)
    (reload : DataFrame) (dtIndex : Option Column)
    (columns : Option (List String)) (df1 df2 df' : DataFrame) (t t' : String)
    (v : List String)
    (h1 : detect_phase df isCsv reload dtIndex = .ok (df1, t))
    (h2 : coerce_time df1 t = .ok df2)
    (h3 : prepare_data df isCsv reload dtIndex columns = .ok (df', t', v)) :
    t' = t ∧ df'.cols = df2.cols.filter (fun c => !c.allNull) := by
  obtain ⟨df1', df2', hd, hc, hdf, hr, hv⟩ := prepare_data_ok h3
  have hpair : df1 = df1' ∧ t = t' := by
    have hh := h1.symm.trans hd
    simpa [Prod.ext_iff] using hh
  obtain ⟨he1, he2⟩ := hpair
  subst he1
  subst he2
  have hdf2 : df2 = df2' := by
    have hh := h2.symm.trans hc
    simpa using hh
  subst hdf2
  refine ⟨rfl, ?_⟩
  rw [hdf]
  rfl

def dfNullC : DataFrame := ⟨[⟨"a", .dtDatetime, [.null]⟩, ⟨"b", .dtInt, [.num 5]⟩]⟩

/-- Witness for C8 (amended), at the counterexample frame: the returned
table's columns are exactly the non-all-null columns of the coerced
frame. -/
theorem prepare_prunes_all_null_witness :
    ("a" : String) = "a" ∧
    (⟨[⟨"b", .dtInt, [.num 5]⟩]⟩ : DataFrame).cols =
      dfNullC.cols.filter (fun c => !c.allNull) :=
  prepare_prunes_all_null dfNull true dfNull none none dfNull dfNullC
    ⟨[⟨"b", .dtInt, [.num 5]⟩]⟩ "a" "a" ["b"] (by decide) (by decide) (by decide)

theorem prepare_explicit_cases (df : DataFrame) (isCsv : Bool)
    (reload : DataFrame) (dtIndex : Option Column) (df1 df2 : DataFrame)
    (t : String) (cs : List String)
    (h1 : detect_phase df isCsv reload dtIndex = .ok (df1, t))
    (h2 : coerce_time df1 t = .ok df2)
    (hcs : cs ≠ []) :
    (cs.filter (fun c => !(drop_all_null df2).hasCol c) ≠ [] →
      prepare_data df isCsv reload dtIndex (some cs) =
        .error (.columnsNotFound
          (cs.filter (fun c => !(drop_all_null df2).hasCol c)))) ∧
    (cs.filter (fun c => !(drop_all_null df2).hasCol c) = [] →
      prepare_data df isCsv reload dtIndex (some cs) =
        .ok (drop_all_null df2, t, cs)) := by
  have hmain : prepare_data df isCsv reload dtIndex (some cs) =
      finish_prepare df1 t (some cs) := by
    simp only [prepare_data, h1]
  have hcse : cs.isEmpty = false := by
    rcases cs with _ | ⟨a, l⟩
    · exact absurd rfl hcs
    · rfl
  constructor
  · intro hm
    have hmne : (cs.filter (fun c => !(drop_all_null df2).hasCol c)).isEmpty = false := by
      rcases hq : (cs.filter (fun c => !(drop_all_null df2).hasCol c)).isEmpty with _ | _
      · rfl
      · exact absurd (by simpa [List.isEmpty_iff] using hq) hm
    rw [hmain]
    simp only [finish_prepare, h2, resolve_value_cols, hcse, Bool.false_eq_true,
      if_false, hmne]
  · intro hm
    have hme : (cs.filter (fun c => !(drop_all_null df2).hasCol c)).isEmpty = true := by
      simp [List.isEmpty_iff, hm]
    rw [hmain]
    simp only [finish_prepare, h2, resolve_value_cols, hcse, Bool.false_eq_true,
      if_false, hme, if_true]

/-- C5: with a caller-supplied non-empty column list, `prepare_data`
fails with a `Columns not found` error listing every absent name (in
request order) whenever any requested name is missing from the prepared
table, and otherwise returns exactly the caller's list. -/
theorem prepare_explicit_columns (df : DataFrame) (isCsv : Bool)
    (reload : DataFrame) (dtIndex : Option Column) (df1 df2 : DataFrame)
    (t : String) (cs : List String)
    (h1 : detect_phase df isCsv reload dtIndex = .ok (df1, t))
    (h2 : coerce_time df1 t = .ok df2)
    (hcs : cs ≠ []) :
    (cs.filter (fun c => !(drop_all_null df2).hasCol c) ≠ [] →
      prepare_data df isCsv reload dtIndex (some cs) =
        .error (.columnsNotFound
          (cs.filter (fun c => !(drop_all_null df2).hasCol c)))) ∧
    (cs.filter (fun c => !(drop_all_null df2).hasCol c) = [] →
      prepare_data df isCsv reload dtIndex (some cs) =
        .ok (drop_all_null df2, t, cs)) :=
  prepare_explicit_cases df isCsv reload dtIndex df1 df2 t cs h1 h2 hcs

def dfMissing : DataFrame :=
  ⟨[⟨"d", .dtDatetime, [.ts tsJan1]⟩, ⟨"c", .dtFloat, [.null]⟩]⟩

/-- Witness for C5: requesting two nonexistent columns fails with a
`Columns not found` error naming both. -/
theorem prepare_explicit_columns_witness :
    prepare_data dfMissing true dfMissing none (some ["x", "y"]) =
      .error (.columnsNotFound ["x", "y"]) := by
  have h := (prepare_explicit_columns dfMissing true dfMissing none dfMissing
    dfMissing "d" ["x", "y"] (by decide) (by decide) (by decide)).1 (by decide)
  exact h.trans (by decide)

/-- C10: all-null pruning happens before explicit validation, so an
entirely null non-time column of the detected frame, though present in
the input, makes an explicit request for it fail with a
`Columns not found` error naming it. -/
theorem prune_before_validation (df : DataFrame) (isCsv : Bool)
    (reload : DataFrame) (dtIndex : Option Column) (df1 df2 : DataFrame)
    (t c : String) (cs : List String)
    (h1 : detect_phase df isCsv reload dtIndex = .ok (df1, t))
    (h2 : coerce_time df1 t = .ok df2)
    (hc : c ∈ cs)
    (hct : c ≠ t)
    (hex : ∃ col ∈ df1.cols, col.name = c ∧ col.allNull = true)
    (hall : ∀ col ∈ df1.cols, col.name = c → col.allNull = true) :
    prepare_data df isCsv reload dtIndex (some cs) =
      .error (.columnsNotFound
        (cs.filter (fun n => !(drop_all_null df2).hasCol n))) ∧
    c ∈ cs.filter (fun n => !(drop_all_null df2).hasCol n) := by
  have hno : (drop_all_null df2).hasCol c = false := by
    rcases hq : (drop_all_null df2).hasCol c with _ | _
    · rfl
    · exfalso
      obtain ⟨col, hfc⟩ := findCol_isSome_of_hasCol hq
      obtain ⟨hmem, hname⟩ := findCol_mem hfc
      have hmem2 : col ∈ df2.cols ∧ (!col.allNull) = true := by
        simpa [drop_all_null, List.mem_filter] using hmem
      have hmem1 : col ∈ df1.cols :=
        coerce_mem_ne h2 col hmem2.1 (by rw [hname]; exact hct)
      have hcola := hall col hmem1 hname
      rw [hcola] at hmem2
      simp at hmem2
  have hmm : c ∈ cs.filter (fun n => !(drop_all_null df2).hasCol n) :=
    List.mem_filter.mpr ⟨hc, by simp [hno]⟩
  have hne : cs.filter (fun n => !(drop_all_null df2).hasCol n) ≠ [] :=
    List.ne_nil_of_mem hmm
  have hcne : cs ≠ [] := List.ne_nil_of_mem hc
  exact ⟨(prepare_explicit_cases df isCsv reload dtIndex df1 df2 t cs
    h1 h2 hcne).1 hne, hmm⟩

/-- Witness for C10: explicitly requesting the all-null column `c`,
present in the input file, fails with a `Columns not found` error naming
it. -/
theorem prune_before_validation_witness :
    prepare_data dfMissing true dfMissing none (some ["c"]) =
      .error (.columnsNotFound ["c"]) := by
  have h := (prune_before_validation dfMissing true dfMissing none dfMissing
    dfMissing "d" "c" ["c"] (by decide) (by decide) (by decide) (by decide)
    (by decide) (by decide)).1
  exact h.trans (by decide)

theorem filter_map_eq {α : Type} (f : α → α) (p : α → Bool) (l : List α)
    (h : ∀ c, (p (f c) = false ∧ p c = false) ∨ f c = c) :
    (l.map f).filter p = l.filter p := by
  induction l with
  | nil => rfl
  | cons a l ih =>
    rcases h a with ⟨h1, h2⟩ | h1
    · simp [List.filter_cons, h1, h2, ih]
    · rw [List.map_cons, h1]
      simp [List.filter_cons, ih]

theorem setCol_filter_not_name (df : DataFrame) (newc : Column)
    (p : Column → Bool) (hp : ∀ c, c.name = newc.name → p c = false) :
    (df.setCol newc).cols.filter p = df.cols.filter p := by
  simp only [DataFrame.setCol]
  by_cases hh : df.hasCol newc.name = true
  · rw [if_pos hh]
    apply filter_map_eq
    intro c
    by_cases hc : c.name = newc.name
    · left
      refine ⟨?_, hp c hc⟩
      rw [if_pos hc]
      exact hp newc rfl
    · right
      rw [if_neg hc]
  · rw [if_neg hh]
    rw [List.filter_append]
    have h1 : [newc].filter p = [] := by simp [List.filter_cons, hp newc rfl]
    rw [h1, List.append_nil]

theorem mem_setCol {df : DataFrame} {newc c : Column}
    (h : c ∈ (df.setCol newc).cols) : c = newc ∨ c ∈ df.cols := by
  simp only [DataFrame.setCol] at h
  by_cases hp : df.hasCol newc.name = true
  · rw [if_pos hp] at h
    obtain ⟨c0, hc0, heq⟩ := List.mem_map.mp h
    by_cases h0 : c0.name = newc.name
    · rw [if_pos h0] at heq
      exact Or.inl heq.symm
    · rw [if_neg h0] at heq
      exact Or.inr (heq ▸ hc0)
  · rw [if_neg hp] at h
    rcases List.mem_append.mp h with hl | hr
    · exact Or.inr hl
    · exact Or.inl (by simpa using hr)

theorem map_name_eq_singleton {l : List Column} {nm : String}
    (h : l.map Column.name = [nm]) : ∃ c, l = [c] ∧ c.name = nm := by
  rcases l with _ | ⟨a, l'⟩
  · simp at h
  · rcases l' with _ | ⟨b, l''⟩
    · refine ⟨a, rfl, ?_⟩
      simpa using h
    · simp at h

theorem filter_numeric_of_ne {l : List Column} {c0 : Column} {nm t : String}
    (hf : l.filter (fun c => isNumericDtype c.dtype) = [c0])
    (hn : c0.name = nm) (hne : nm ≠ t) :
    ((l.filter (fun c => c.name ≠ t)).filter
      (fun c => isNumericDtype c.dtype)).map Column.name = [nm] := by
  have hcomm : (l.filter (fun c => c.name ≠ t)).filter
        (fun c => isNumericDtype c.dtype)
      = (l.filter (fun c => isNumericDtype c.dtype)).filter
        (fun c => c.name ≠ t) := by
    rw [List.filter_filter, List.filter_filter]
    apply List.filter_congr
    intro c _
    exact Bool.and_comm _ _
  rw [hcomm, hf]
  have hd : decide (c0.name ≠ t) = true := by simp [hn, hne]
  simp [List.filter_cons, hd, hn, hne]

theorem coerce_time_ts_fixpoint {df : DataFrame} {t : String} {c : Column}
    (hf : df.findCol t = some c)
    (hts : ∀ v ∈ c.values, ∃ k, v = Value.ts k)
    (hname : c.name = t) (hdt : c.dtype = Dtype.dtDatetime)
    (hall : ∀ c' ∈ df.cols, c'.name = t → c' = c) :
    coerce_time df t = .ok df := by
  simp only [coerce_time, hf, mapM_to_datetime_id hts]
  have hcc : (⟨t, Dtype.dtDatetime, c.values⟩ : Column) = c := by
    cases c
    simp_all
  rw [hcc]
  have hmem := (findCol_mem hf).1
  have hpres : df.hasCol c.name = true := hasCol_of_mem hmem rfl
  rw [setCol_set_same hpres (fun c' hm hn => hall c' hm (by rw [← hname]; exact hn))]

theorem detect_phase_synth (df : DataFrame) (isCsv : Bool) (reload : DataFrame)
    (hdet : detect_time_column df = none)
    (hone : (df.cols.filter (fun c => isNumericDtype c.dtype)).length = 1) :
    detect_phase df isCsv reload none =
      .ok (df.setCol ⟨"datetime", .dtDatetime, date_range_hourly df.height⟩,
        "datetime") := by
  have hcond : (isCsv && df.cols.length == 1 &&
      !(isNumericDtype (headDtype df))) = false := by
    by_cases hlen : df.cols.length = 1
    · rcases hcols : df.cols with _ | ⟨c, l⟩
      · rw [hcols] at hlen
        simp at hlen
      · have hl0 : l = [] := by
          rw [hcols] at hlen
          simpa using hlen
        subst hl0
        have hcnum : isNumericDtype c.dtype = true := by
          by_cases hq : isNumericDtype c.dtype = true
          · exact hq
          · exfalso
            rw [hcols] at hone
            simp only [Bool.not_eq_true] at hq
            simp [List.filter_cons, hq] at hone
        have hhd : headDtype df = c.dtype := by simp [headDtype, hcols]
        rw [hhd, hcnum]
        simp
    · have hl : (df.cols.length == 1) = false := by simpa using hlen
      rw [hl]
      simp
  simp only [detect_phase, hdet, Option.isNone_none, Bool.true_and, hcond,
    Bool.false_eq_true, if_false]
  rw [if_pos hone]

def dfClash : DataFrame :=
  ⟨[⟨"datetime", .dtFloat, [.num 10000000000000000000]⟩,
    ⟨"txt", .dtObject, [.str "x"]⟩]⟩

/-- Counterexample to C4 as stated: a frame satisfying the claim's
premises (no timestamp column detected — the numeric value is out of the
`datetime64[ns]` range — no datetime index, exactly one numeric column)
whose numeric column is itself named `datetime`; the synthesized range
overwrites it, leaving no value column, and `prepare_data` fails instead
of returning it as the sole value column. -/
theorem prepare_synthesizes_hourly_cex :
    detect_time_column dfClash = none ∧
    (dfClash.cols.filter (fun c => isNumericDtype c.dtype)).length = 1 ∧
    prepare_data dfClash true dfClash none none = .error .noNumericColumns :=
  ⟨by decide, by decide, by decide⟩

/-- C4 (amended): for every table in which no timestamp column was
detected, with no datetime index, with exactly one numeric column, and
whose numeric column is not itself named `datetime` (else the range
overwrites it and preparation fails), `prepare_data` appends a
`datetime` column holding one hourly timestamp per row starting at
2027-01-01T00:00:00, returns it as the time column with the numeric
column as the sole value column; for 8760 rows the last timestamp is
2027-12-31T23:00:00. -/
theorem prepare_synthesizes_hourly (df : DataFrame) (isCsv : Bool)
    (reload : DataFrame) (nm : String)
    (hdet : detect_time_column df = none)
    (hnum : (df.cols.filter (fun c => isNumericDtype c.dtype)).map Column.name = [nm])
    (hnm : nm ≠ "datetime")
    (halign : ∀ c ∈ df.cols, c.values.length = df.height) :
    prepare_data df isCsv reload none none =
      .ok (df.setCol ⟨"datetime", .dtDatetime, date_range_hourly df.height⟩,
        "datetime", [nm]) ∧
    (df.setCol ⟨"datetime", .dtDatetime,
        date_range_hourly df.height⟩).findCol "datetime" =
      some ⟨"datetime", .dtDatetime, date_range_hourly df.height⟩ ∧
    (date_range_hourly df.height).head? = some (.ts (toHours 2027 1 1 0)) ∧
    (df.height = 8760 →
      (date_range_hourly df.height).getLast? =
        some (.ts (toHours 2027 12 31 23))) := by
  have hone : (df.cols.filter (fun c => isNumericDtype c.dtype)).length = 1 := by
    have := congrArg List.length hnum
    simpa using this
  obtain ⟨c0, hfilt, hc0n⟩ := map_name_eq_singleton hnum
  have hc0 : c0 ∈ df.cols ∧ isNumericDtype c0.dtype = true := by
    have : c0 ∈ df.cols.filter (fun c => isNumericDtype c.dtype) := by
      rw [hfilt]
      simp
    exact ⟨(List.mem_filter.mp this).1, (List.mem_filter.mp this).2⟩
  have hheight : df.height ≠ 0 := by
    have hps := (detect_none_forall hdet c0 hc0.1).2
    obtain ⟨v, hv, -, -⟩ := column_parses_false_exists hps
    have hlen := halign c0 hc0.1
    intro hz
    rw [hz] at hlen
    rw [List.length_eq_zero.mp hlen] at hv
    cases hv
  have hd := detect_phase_synth df isCsv reload hdet hone
  have hfind := findCol_setCol_self df
    ⟨"datetime", .dtDatetime, date_range_hourly df.height⟩
  have hco : coerce_time
      (df.setCol ⟨"datetime", .dtDatetime, date_range_hourly df.height⟩)
      "datetime" =
      .ok (df.setCol ⟨"datetime", .dtDatetime, date_range_hourly df.height⟩) :=
    coerce_time_ts_fixpoint hfind (date_range_all_ts df.height) rfl rfl
      (fun c' hm hn => setCol_names hm hn)
  have hprune : drop_all_null
      (df.setCol ⟨"datetime", .dtDatetime, date_range_hourly df.height⟩) =
      df.setCol ⟨"datetime", .dtDatetime, date_range_hourly df.height⟩ := by
    simp only [drop_all_null]
    congr 1
    apply List.filter_eq_self.mpr
    intro c hmem
    rcases mem_setCol hmem with heq | hmem0
    · subst heq
      simp [date_range_not_allNull hheight]
    · have hps := (detect_none_forall hdet c hmem0).2
      simp [column_parses_false_not_allNull hps]
  have hauto : autoCols
      (df.setCol ⟨"datetime", .dtDatetime, date_range_hourly df.height⟩)
      "datetime" = [nm] := by
    simp only [autoCols]
    rw [setCol_filter_not_name df
      ⟨"datetime", .dtDatetime, date_range_hourly df.height⟩
      (fun c => decide (c.name ≠ "datetime"))
      (fun c hc => by simp [hc])]
    exact filter_numeric_of_ne hfilt hc0n hnm
  refine ⟨?_, hfind, date_range_head hheight, ?_⟩
  · simp only [prepare_data, hd, finish_prepare, hco, hprune,
      resolve_value_cols, hauto]
    simp
  · intro h8
    rw [h8, date_range_last (by decide)]
    decide

def dfSynth : DataFrame := ⟨[⟨"v", .dtFloat, [.num 10000000000000000000]⟩]⟩

/-- Witness for C4 (amended): a one-row, one-column numeric frame whose
value is out of the `datetime64[ns]` range gets a synthesized hourly
`datetime` column and keeps `v` as the sole value column. -/
theorem prepare_synthesizes_hourly_witness :
    prepare_data dfSynth true dfSynth none none =
      .ok (dfSynth.setCol ⟨"datetime", .dtDatetime,
        date_range_hourly dfSynth.height⟩, "datetime", ["v"]) :=
  (prepare_synthesizes_hourly dfSynth true dfSynth "v" (by decide) (by decide)
    (by decide) (by decide)).1

/-! ## Chart-builder lemmas -/

theorem plot_traces_cons {t : String} {hy : Bool} {df : DataFrame} {idx : Nat}
    {col : String} {rest : List String} {trs : List Trace} {df2 : DataFrame}
    (h : plot_traces t hy df idx (col :: rest) = some (trs, df2)) :
    ∃ tcol df1 customdata ycol tcol2 trs',
      df.findCol t = some tcol ∧
      (if hy then
          (if tcol.dtype = Dtype.dtDatetime then
            some (df.setCol ⟨"_day_of_week", Dtype.dtObject,
              day_of_week_values tcol.values⟩,
              some (day_of_week_values tcol.values))
          else none)
        else some (df, none)) = some (df1, customdata) ∧
      df1.findCol col = some ycol ∧ df1.findCol t = some tcol2 ∧
      plot_traces t hy df1 (idx + 1) rest = some (trs', df2) ∧
      trs = (⟨col, tcol2.values, ycol.values, customdata,
        hover_template_for col hy,
        PALETTE_COLORS.getD (idx % PALETTE_COLORS.length) ""⟩ : Trace) :: trs' := by
  simp only [plot_traces] at h
  rcases hf : df.findCol t with _ | tcol
  · simp only [hf] at h
    exact Option.noConfusion h
  · simp only [hf] at h
    rcases hstep : (if hy then
        (if tcol.dtype = Dtype.dtDatetime then
          some (df.setCol ⟨"_day_of_week", Dtype.dtObject,
            day_of_week_values tcol.values⟩,
            some (day_of_week_values tcol.values))
        else none)
      else some (df, none)) with _ | p
    · simp only [hstep] at h
      exact Option.noConfusion h
    · simp only [hstep] at h
      rcases hyc : p.1.findCol col with _ | ycol
      · simp only [hyc] at h
        exact Option.noConfusion h
      · rcases ht2 : p.1.findCol t with _ | tcol2
        · simp only [hyc, ht2] at h
          exact Option.noConfusion h
        · simp only [hyc, ht2] at h
          rcases hrec : plot_traces t hy p.1 (idx + 1) rest with _ | q
          · simp only [hrec] at h
            exact Option.noConfusion h
          · simp only [hrec, Option.some.injEq, Prod.mk.injEq] at h
            obtain ⟨h1, h2⟩ := h
            exact ⟨tcol, p.1, p.2, ycol, tcol2, q.1, rfl, hstep, hyc, ht2,
              by rw [hrec, ← h2], h1.symm⟩

theorem plot_traces_series {t : String} {hy : Bool} :
    ∀ (v : List String) (df : DataFrame) (idx : Nat) (trs : List Trace)
      (df2 : DataFrame), plot_traces t hy df idx v = some (trs, df2) →
      trs.length = v.length ∧
      ∀ (i : Nat) (hi : i < trs.length) (hv : i < v.length),
        (trs.get ⟨i, hi⟩).name = v.get ⟨i, hv⟩ ∧
        (trs.get ⟨i, hi⟩).color =
          PALETTE_COLORS.getD ((idx + i) % PALETTE_COLORS.length) ""
  | [], df, idx, trs, df2, h => by
      simp only [plot_traces, Option.some.injEq, Prod.mk.injEq] at h
      obtain ⟨h1, -⟩ := h
      subst h1
      exact ⟨rfl, fun i hi hv => absurd hv (Nat.not_lt_zero i)⟩
  | col :: rest, df, idx, trs, df2, h => by
      obtain ⟨tcol, df1, customdata, ycol, tcol2, trs', hf, hstep, hyc, ht2,
        hrec, htrs⟩ := plot_traces_cons h
      subst htrs
      obtain ⟨ihlen, ihidx⟩ := plot_traces_series rest df1 (idx + 1) trs' df2 hrec
      refine ⟨by simp [ihlen], ?_⟩
      intro i hi hv
      cases i with
      | zero => exact ⟨rfl, by simp⟩
      | succ j =>
        have hj1 : j < trs'.length := by simpa using hi
        have hj2 : j < rest.length := by simpa using hv
        have hidx := ihidx j hj1 hj2
        refine ⟨by simpa using hidx.1, ?_⟩
        have harith : idx + 1 + j = idx + (j + 1) := by omega
        rw [harith] at hidx
        simpa using hidx.2

/-- C6: `create_plot` produces exactly one series per value column, in
list order, each named after its column, with the color at position
`i % 5` of the fixed palette. -/
theorem create_plot_series (df : DataFrame) (t : String) (v : List String)
    (fig : Figure) (df2 : DataFrame)
    (h : create_plot df t v = some (fig, df2)) :
    fig.traces.length = v.length ∧
    ∀ (i : Nat) (hi : i < fig.traces.length) (hv : i < v.length),
      (fig.traces.get ⟨i, hi⟩).name = v.get ⟨i, hv⟩ ∧
      (fig.traces.get ⟨i, hi⟩).color = PALETTE_COLORS.getD (i % 5) "" := by
  simp only [create_plot] at h
  rcases hf : df.findCol t with _ | tcol
  · simp only [hf] at h
    exact Option.noConfusion h
  · simp only [hf] at h
    by_cases hdt : tcol.dtype = Dtype.dtDatetime
    · rw [if_pos hdt] at h
      rcases hpt : plot_traces t (has_year_of df t) df 0 v with _ | q
      · simp only [hpt] at h
        exact Option.noConfusion h
      · simp only [hpt, Option.some.injEq, Prod.mk.injEq] at h
        obtain ⟨h1, -⟩ := h
        subst h1
        obtain ⟨hlen, hidx⟩ := plot_traces_series v df 0 q.1 q.2 (by rw [hpt])
        refine ⟨by simpa using hlen, ?_⟩
        intro i hi hv
        have hi' : i < q.1.length := by simpa using hi
        have h5 : PALETTE_COLORS.length = 5 := rfl
        have hx := hidx i hi' hv
        rw [h5] at hx
        simpa using hx
    · rw [if_neg hdt] at h
      exact Option.noConfusion h

def defaultTrace : Trace := ⟨"", [], [], none, "", ""⟩

def dfPlotW : DataFrame :=
  ⟨[⟨"t", .dtDatetime, [.ts tsJan1]⟩, ⟨"a", .dtInt, [.num 1]⟩,
    ⟨"b", .dtInt, [.num 2]⟩, ⟨"c", .dtInt, [.num 3]⟩]⟩

def plotW : Figure × DataFrame :=
  (create_plot dfPlotW "t" ["a", "b", "c"]).getD (⟨"", []⟩, ⟨[]⟩)

/-- Witness for C6: plotting three value columns yields exactly three
series. -/
theorem create_plot_series_witness : plotW.1.traces.length = 3 := by
  have hcp : create_plot dfPlotW "t" ["a", "b", "c"] = some (plotW.1, plotW.2) := by
    decide
  have hs := (create_plot_series dfPlotW "t" ["a", "b", "c"] plotW.1 plotW.2 hcp).1
  simpa using hs

theorem day_of_week_values_length (l : List Value) :
    (day_of_week_values l).length = l.length := by
  simp [day_of_week_values]

theorem plot_traces_day {t : String} {hy : Bool} :
    ∀ (v : List String) (df : DataFrame) (idx : Nat) (trs : List Trace)
      (df2 : DataFrame), plot_traces t hy df idx v = some (trs, df2) →
      ∀ tr ∈ trs,
        (hy = true → ∃ dv, tr.customdata = some dv ∧
          dv.length = tr.x.length ∧
          tr.hovertemplate = hover_template_for tr.name true) ∧
        (hy = false → tr.customdata = none ∧
          tr.hovertemplate = hover_template_for tr.name false)
  | [], df, idx, trs, df2, h => by
      simp only [plot_traces, Option.some.injEq, Prod.mk.injEq] at h
      obtain ⟨h1, -⟩ := h
      subst h1
      intro tr htr
      cases htr
  | col :: rest, df, idx, trs, df2, h => by
      obtain ⟨tcol, df1, customdata, ycol, tcol2, trs', hf, hstep, hyc, ht2,
        hrec, htrs⟩ := plot_traces_cons h
      subst htrs
      have ihtail := plot_traces_day rest df1 (idx + 1) trs' df2 hrec
      intro tr htr
      rcases List.mem_cons.mp htr with heq | hmem
      · subst heq
        cases hy with
        | false =>
          simp only [Bool.false_eq_true, if_false, Option.some.injEq,
            Prod.mk.injEq] at hstep
          refine ⟨fun hc => absurd hc (by simp), fun _ => ⟨?_, rfl⟩⟩
          simp [← hstep.2]
        | true =>
          refine ⟨fun _ => ?_, fun hc => Bool.noConfusion hc⟩
          rw [if_pos rfl] at hstep
          by_cases hdt : tcol.dtype = Dtype.dtDatetime
          · rw [if_pos hdt] at hstep
            simp only [Option.some.injEq, Prod.mk.injEq] at hstep
            obtain ⟨hd1, hd2⟩ := hstep
            refine ⟨day_of_week_values tcol.values, by simp [← hd2], ?_, rfl⟩
            by_cases htd : t = "_day_of_week"
            · have hsel : df1.findCol t = some
                  ⟨"_day_of_week", Dtype.dtObject, day_of_week_values tcol.values⟩ := by
                rw [← hd1, htd]
                exact findCol_setCol_self df _
              rw [ht2] at hsel
              have htc2 : tcol2 = ⟨"_day_of_week", Dtype.dtObject,
                  day_of_week_values tcol.values⟩ := by
                simpa using hsel
              simp [htc2, day_of_week_values_length]
            · have hsel : df1.findCol t = df.findCol t := by
                rw [← hd1]
                exact findCol_setCol_ne htd
              rw [ht2, hf] at hsel
              have htc2 : tcol2 = tcol := by simpa using hsel
              simp [htc2, day_of_week_values_length]
          · rw [if_neg hdt] at hstep
            exact Option.noConfusion hstep
      · exact ihtail tr hmem

/-- C9: calendar-date granularity is decided once from the time column
(some non-null timestamp present); exactly when it holds every series
carries a per-point day-of-week array in its hover data and the Day line
in its hover template, and when it fails both are omitted from every
series. -/
theorem create_plot_day_of_week (df : DataFrame) (t : String)
    (v : List String) (fig : Figure) (df2 : DataFrame)
    (h : create_plot df t v = some (fig, df2)) :
    ∀ tr ∈ fig.traces,
      (has_year_of df t = true → ∃ dv, tr.customdata = some dv ∧
        dv.length = tr.x.length ∧
        tr.hovertemplate = hover_template_for tr.name true) ∧
      (has_year_of df t = false → tr.customdata = none ∧
        tr.hovertemplate = hover_template_for tr.name false) := by
  simp only [create_plot] at h
  rcases hf : df.findCol t with _ | tcol
  · simp only [hf] at h
    exact Option.noConfusion h
  · simp only [hf] at h
    by_cases hdt : tcol.dtype = Dtype.dtDatetime
    · rw [if_pos hdt] at h
      rcases hpt : plot_traces t (has_year_of df t) df 0 v with _ | q
      · simp only [hpt] at h
        exact Option.noConfusion h
      · simp only [hpt, Option.some.injEq, Prod.mk.injEq] at h
        obtain ⟨h1, -⟩ := h
        subst h1
        intro tr htr
        exact plot_traces_day v df 0 q.1 q.2 (by rw [hpt]) tr (by simpa using htr)
    · rw [if_neg hdt] at h
      exact Option.noConfusion h

/-- Witness for C9: in a concrete plot over a real timestamp, the first
series carries hover day-of-week data. -/
theorem create_plot_day_of_week_witness :
    (plotW.1.traces.getD 0 defaultTrace).customdata.isSome = true := by
  have hcp : create_plot dfPlotW "t" ["a", "b", "c"] = some (plotW.1, plotW.2) := by
    decide
  have hd := create_plot_day_of_week dfPlotW "t" ["a", "b", "c"] plotW.1
    plotW.2 hcp
  have hy : has_year_of dfPlotW "t" = true := by decide
  have hmem : plotW.1.traces.getD 0 defaultTrace ∈ plotW.1.traces := by decide
  obtain ⟨dv, hdv, -, -⟩ := (hd _ hmem).1 hy
  rw [hdv]
  rfl

theorem plot_traces_no_mut {t : String} {tc : Column} :
    ∀ (v : List String) (df : DataFrame) (idx : Nat),
      df.findCol t = some tc →
      (∀ n ∈ v, df.hasCol n = true) →
      ∃ trs, plot_traces t false df idx v = some (trs, df)
  | [], _, _, _, _ => ⟨[], rfl⟩
  | col :: rest, df, idx, h1, h3 => by
      obtain ⟨trs', hrec⟩ := plot_traces_no_mut rest df (idx + 1) h1
        (fun n hn => h3 n (by simp [hn]))
      obtain ⟨ycol, hyc⟩ := findCol_isSome_of_hasCol (h3 col (by simp))
      refine ⟨⟨col, tc.values, ycol.values, none, hover_template_for col false,
        PALETTE_COLORS.getD (idx % PALETTE_COLORS.length) ""⟩ :: trs', ?_⟩
      simp only [plot_traces, h1, Bool.false_eq_true, if_false, hyc, hrec]

theorem plot_traces_stable {t : String} {tc : Column} :
    ∀ (v : List String) (df : DataFrame) (idx : Nat),
      df.findCol t = some tc →
      tc.dtype = Dtype.dtDatetime →
      (∀ n ∈ v, df.hasCol n = true) →
      df.setCol ⟨"_day_of_week", Dtype.dtObject,
        day_of_week_values tc.values⟩ = df →
      ∃ trs, plot_traces t true df idx v = some (trs, df)
  | [], _, _, _, _, _, _ => ⟨[], rfl⟩
  | col :: rest, df, idx, h1, h2, h3, h4 => by
      obtain ⟨trs', hrec⟩ := plot_traces_stable rest df (idx + 1) h1 h2
        (fun n hn => h3 n (by simp [hn])) h4
      obtain ⟨ycol, hyc⟩ := findCol_isSome_of_hasCol (h3 col (by simp))
      refine ⟨⟨col, tc.values, ycol.values,
        some (day_of_week_values tc.values), hover_template_for col true,
        PALETTE_COLORS.getD (idx % PALETTE_COLORS.length) ""⟩ :: trs', ?_⟩
      simp only [plot_traces, h1, if_true, h2, if_pos, h4, hyc, hrec]

/-- The Data Preparer's postconditions on `create_plot`'s input, per the
spec's data model: distinct column names, a datetime-typed time column,
and a non-empty list of numeric value columns disjoint from the time
column. -/
def well_formed_input (df : DataFrame) (t : String) (v : List String) : Prop :=
  (df.cols.map Column.name).Nodup ∧
  (∃ c ∈ df.cols, c.name = t ∧ c.dtype = Dtype.dtDatetime) ∧ v ≠ [] ∧
  (∀ n ∈ v, n ≠ t ∧ ∃ c ∈ df.cols, c.name = n ∧ isNumericDtype c.dtype = true)

/-- Counterexample to C3 as stated: `create_plot` succeeds on a
well-formed prepared input but hands back a table that differs from its
input (a `_day_of_week` helper column was added to it). -/
theorem create_plot_frame_effect_cex :
    ((create_plot dfPlotW "t" ["a", "b", "c"]).map Prod.snd).isSome = true ∧
    (create_plot dfPlotW "t" ["a", "b", "c"]).map Prod.snd ≠ some dfPlotW :=
  ⟨by decide, by decide⟩

/-- C3 (amended): on every well-formed input whose time column is not
named `_day_of_week`, `create_plot` produces a chart without failing,
and leaves the table unchanged only when the time column has no non-null
timestamp; when it does, the table comes back with the `_day_of_week`
helper column added (set in place), all other columns unchanged. -/
theorem create_plot_frame_effect (df : DataFrame) (t : String)
    (v : List String) (hwf : well_formed_input df t v)
    (ht : t ≠ "_day_of_week") :
    ∃ fig df2, create_plot df t v = some (fig, df2) ∧
      (has_year_of df t = false → df2 = df) ∧
      (has_year_of df t = true → ∃ tc, df.findCol t = some tc ∧
        df2 = df.setCol ⟨"_day_of_week", Dtype.dtObject,
          day_of_week_values tc.values⟩) := by
  obtain ⟨hnd, ⟨tc, htcm, htcn, htcd⟩, hvne, hcols⟩ := hwf
  have hf : df.findCol t = some tc := findCol_eq_of_nodup hnd htcm htcn
  have hvhas : ∀ n ∈ v, df.hasCol n = true := by
    intro n hn
    obtain ⟨-, c, hm, hcn, -⟩ := hcols n hn
    exact hasCol_of_mem hm hcn
  rcases hhy : has_year_of df t with _ | _
  · obtain ⟨trs, hpt⟩ := plot_traces_no_mut v df 0 hf hvhas
    refine ⟨⟨"Time Series Visualization", trs⟩, df, ?_, fun _ => rfl,
      fun hc => absurd hc (by simp [hhy])⟩
    simp only [create_plot, hf, if_pos htcd, hhy, hpt]
  · have hne : t ≠ (⟨"_day_of_week", Dtype.dtObject,
        day_of_week_values tc.values⟩ : Column).name := ht
    have hf1 : (df.setCol ⟨"_day_of_week", Dtype.dtObject,
        day_of_week_values tc.values⟩).findCol t = some tc := by
      rw [findCol_setCol_ne hne]
      exact hf
    have hvhas1 : ∀ n ∈ v, (df.setCol ⟨"_day_of_week", Dtype.dtObject,
        day_of_week_values tc.values⟩).hasCol n = true :=
      fun n hn => hasCol_setCol_of_hasCol (hvhas n hn)
    have hstab : (df.setCol ⟨"_day_of_week", Dtype.dtObject,
          day_of_week_values tc.values⟩).setCol
        ⟨"_day_of_week", Dtype.dtObject, day_of_week_values tc.values⟩ =
        df.setCol ⟨"_day_of_week", Dtype.dtObject,
          day_of_week_values tc.values⟩ :=
      setCol_setCol_same df _
    rcases v with _ | ⟨n0, rest⟩
    · exact absurd rfl hvne
    · obtain ⟨trs', hrec⟩ := plot_traces_stable rest
        (df.setCol ⟨"_day_of_week", Dtype.dtObject,
          day_of_week_values tc.values⟩) 1 hf1 htcd
        (fun n hn => hvhas1 n (by simp [hn])) hstab
      obtain ⟨ycol, hyc⟩ := findCol_isSome_of_hasCol (hvhas1 n0 (by simp))
      refine ⟨⟨"Time Series Visualization",
        (⟨n0, tc.values, ycol.values,
          some (day_of_week_values tc.values), hover_template_for n0 true,
          PALETTE_COLORS.getD (0 % PALETTE_COLORS.length) ""⟩ : Trace) :: trs'⟩,
        df.setCol ⟨"_day_of_week", Dtype.dtObject,
          day_of_week_values tc.values⟩, ?_,
        fun hc => absurd hc (by simp [hhy]), fun _ => ⟨tc, hf, rfl⟩⟩
      simp only [create_plot, hf, if_pos htcd, hhy, plot_traces, if_true,
        hyc, hf1, hrec]

/-- Witness for C3 (amended): on a concrete well-formed input,
`create_plot` succeeds. -/
theorem create_plot_frame_effect_witness :
    ((create_plot dfPlotW "t" ["a", "b", "c"]).map Prod.fst).isSome = true := by
  obtain ⟨fig, df2, hcp, -, -⟩ := create_plot_frame_effect dfPlotW "t"
    ["a", "b", "c"] ⟨by decide, by decide, by decide, by decide⟩ (by decide)
  rw [hcp]
  rfl

/-- Counterexample to C7 as stated: a nonexistent input path is rejected
by the click argument layer with a usage error and exit code 2, before
`main`'s `Error: <message>`/exit-1 handler can run. -/
theorem cli_error_path_cex :
    (run_cli (.notFound "missing.csv") none none).exitCode = 2 ∧
    ¬ (run_cli (.notFound "missing.csv") none none).exitCode = 1 ∧
    (run_cli (.notFound "missing.csv") none none).chart = none :=
  ⟨by decide, by decide, by decide⟩

/-- C7 (amended): for every failing invocation whose path passed the
argument layer's existence check, the process prints `Error: <message>`
to standard error, exits with code 1, and produces no chart output; a
nonexistent input path instead aborts in the argument layer with a usage
error and exit code 2. -/
theorem cli_error_path (load : LoadResult) (cols : Option (List String))
    (title : Option String) (hnf : ∀ p, load ≠ LoadResult.notFound p) :
    (∀ e, pipeline load cols = .error e →
      run_cli load cols title = ⟨1, some ("Error: " ++ e.message), none⟩) ∧
    (∀ df t v, pipeline load cols = .ok (df, t, v) →
      create_plot df t v = none →
      run_cli load cols title =
        ⟨1, some ("Error: " ++ plot_error_message), none⟩) := by
  constructor
  · intro e he
    cases load with
    | notFound p => exact absurd rfl (hnf p)
    | badSuffix s => simp only [run_cli, he]
    | table df0 isCsv reload dtIndex => simp only [run_cli, he]
  · intro df t v hok hcp
    cases load with
    | notFound p => exact absurd rfl (hnf p)
    | badSuffix s => simp [pipeline] at hok
    | table df0 isCsv reload dtIndex => simp only [run_cli, hok, hcp]

/-- Witness for C7 (amended): an unsupported suffix aborts with the
formatted message, exit code 1, and no chart. -/
theorem cli_error_path_witness :
    run_cli (.badSuffix ".txt") none none =
      ⟨1, some "Error: Unsupported file format: .txt", none⟩ := by
  have h := (cli_error_path (.badSuffix ".txt") none none
    (fun p h => LoadResult.noConfusion h)).1 (.unsupportedFormat ".txt")
    (by decide)
  exact h.trans (by decide)

end Tsviz
